import Mathlib

/-!
Shallow embedding of the `ScaledDotProductAttention` hardware custom operator
(`src/finn/custom_op/fpgadataflow/attention.py`) and proofs about its
shape-folding, stream-width, accumulator-width, datatype-inference and
execution-dispatch behaviour.

Modelling conventions:
* Node attributes become the fields of `Config`; datatype attributes store the
  registry *name* strings, exactly like the string-valued node attributes in
  the source.
* The QONNX datatype registry (`DataType[...]`) is external to the repository;
  it is modelled as a parameter `reg : String → Option DType`, where `DType`
  carries the descriptor prescribed by the specification (signedness,
  bit-width, float flag, minimal and maximal representable value).  A failed
  lookup is a `KeyError`.
* Python exceptions are modelled as `Except String` results (or an
  `Option String` error component when mutations preceding the exception must
  be preserved).
* The `numpy` evaluation of `int(np.ceil(np.log2(b) + 1))` is modelled exactly
  over the reals; for an integer `b ≥ 1` it equals `⌈log₂ b⌉ + 1`, and
  `ceil_log2` below is an executable `⌈log₂ ·⌉` (proved to agree with
  `Real.logb` in `ceil_log2_cast_eq_ceil_logb`).
-/

/-- Descriptor of one entry of the external QONNX datatype registry, as the
specification prescribes: signedness, bit-width and float flag plus minimal
and maximal representable value. -/
structure DType where
  signed : Bool
  bitwidth : Nat
  isFloat : Bool
  min : Int
  max : Int
deriving DecidableEq

/-- The three admissible values of the `mask_mode` node attribute (the
attribute registry restricts the string to `none`, `input` or `causal`). -/
inductive MaskMode
  | none
  | input
  | causal
deriving DecidableEq

/-- Node-attribute configuration of one `ScaledDotProductAttention` instance
(`get_nodeattr_types`).  Datatype attributes hold registry name strings. -/
structure Config where
  QKDim : Nat
  QLen : Nat
  VDim : Nat
  KVLen : Nat
  EmbFold : Nat
  SeqFold : Nat
  QType : String
  KType : String
  VType : String
  MType : String
  AType : String
  OType : String
  AccQKMatMul : String
  OutQKMatMul : String
  AccAVMatMul : String
  OutAVMatMul : String
  mask_mode : MaskMode
  exec_mode : String
  code_gen_dir_cppsim : String
  code_gen_dir_ipgen : String
deriving DecidableEq

/-- `shapes` property: `(QKDim, QLen, VDim, KVLen)`. -/
def Config.shapes (c : Config) : Nat × Nat × Nat × Nat :=
  (c.QKDim, c.QLen, c.VDim, c.KVLen)

/-- `folds` property: `(EmbFold, SeqFold)`. -/
def Config.folds (c : Config) : Nat × Nat :=
  (c.EmbFold, c.SeqFold)

/-- `is_valid_folding`: `not ((qkdim % embfold) or (vdim % embfold) or
(kvlen % seqfold))`, with Python integer truthiness (nonzero is true).
Note that Python raises `ZeroDivisionError` on a zero fold factor; theorems
below therefore carry positivity hypotheses on the fold factors. -/
def is_valid_folding (c : Config) : Bool :=
  !(decide (c.QKDim % c.EmbFold ≠ 0) || decide (c.VDim % c.EmbFold ≠ 0) ||
    decide (c.KVLen % c.SeqFold ≠ 0))

/-- `get_normal_input_shape`: positional lookup in the list of input shapes,
with the mask shape appended only in `input` mask mode.  An out-of-range
index is a Python `IndexError`. -/
def get_normal_input_shape (c : Config) (ind : Nat) : Except String (Nat × Nat) :=
  let inputs_shapes : List (Nat × Nat) :=
    [(c.QLen, c.QKDim), (c.KVLen, c.QKDim), (c.KVLen, c.VDim)]
  let inputs_shapes :=
    if c.mask_mode = MaskMode.input then inputs_shapes ++ [(c.QLen, c.KVLen)]
    else inputs_shapes
  match inputs_shapes[ind]? with
  | some s => .ok s
  | Option.none => .error "IndexError: list index out of range"

/-- `get_normal_output_shape`: `(QLen, VDim)`. -/
def get_normal_output_shape (c : Config) : Nat × Nat :=
  (c.QLen, c.VDim)

/-- `get_normal_attention_shape`: `(QLen, KVLen)`. -/
def get_normal_attention_shape (c : Config) : Nat × Nat :=
  (c.QLen, c.KVLen)

/-- `get_folded_input_shape`: query, key and value are folded by `EmbFold`
along the embedding dimension; the mask (only in `input` mask mode) is folded
by `SeqFold`.  Any other index raises.  Note that for an inactive index the
`IndexError` inside `get_normal_input_shape` fires before the explicit
`Requested shape of invalid input index` exception can be reached. -/
def get_folded_input_shape (c : Config) (ind : Nat) : Except String (Nat × Nat × Nat) :=
  match get_normal_input_shape c ind with
  | .error e => .error e
  | .ok (ilen, idim) =>
    if ind = 0 ∨ ind = 1 ∨ ind = 2 then
      .ok (ilen, c.EmbFold, idim / c.EmbFold)
    else if ind = 3 ∧ c.mask_mode = MaskMode.input then
      .ok (ilen, c.SeqFold, idim / c.SeqFold)
    else
      .error ("Requested shape of invalid input index " ++ toString ind)

/-- `get_folded_output_shape`: the output is folded by `EmbFold` along the
embedding dimension. -/
def get_folded_output_shape (c : Config) : Nat × Nat × Nat :=
  (c.QLen, c.EmbFold, c.VDim / c.EmbFold)

/-- `get_folded_attention_shape`: the attention weights are folded by
`SeqFold` along the key/value sequence dimension. -/
def get_folded_attention_shape (c : Config) : Nat × Nat × Nat :=
  (c.QLen, c.SeqFold, c.KVLen / c.SeqFold)

/-- `get_nodeattr` restricted to the string-valued datatype attributes of the
operator; any other name is an `AttributeError` (the dictionary of registered
attribute types has no such key). -/
def type_nodeattr (c : Config) : String → Option String
  | "QType" => some c.QType
  | "KType" => some c.KType
  | "VType" => some c.VType
  | "MType" => some c.MType
  | "AType" => some c.AType
  | "OType" => some c.OType
  | "AccQKMatMul" => some c.AccQKMatMul
  | "OutQKMatMul" => some c.OutQKMatMul
  | "AccAVMatMul" => some c.AccAVMatMul
  | "OutAVMatMul" => some c.OutAVMatMul
  | _ => Option.none

/-- `DataType[name]`: resolve a datatype name against the external registry;
an unknown name is a `KeyError`. -/
def regLookup (reg : String → Option DType) (name : String) : Except String DType :=
  match reg name with
  | some dt => .ok dt
  | Option.none => .error ("KeyError: " ++ name)

/-- `get_input_datatype`: positional lookup in `["Q", "K", "V"]` (plus
`"mask"` in `input` mask mode), then attribute access on the name with
`"Type"` appended.  For the mask this builds the attribute name `maskType`,
which is not a registered attribute. -/
def get_input_datatype (reg : String → Option DType) (c : Config) (ind : Nat) :
    Except String DType :=
  let inputs : List String :=
    ["Q", "K", "V"] ++ (if c.mask_mode = MaskMode.input then ["mask"] else [])
  match inputs[ind]? with
  | Option.none => .error "IndexError: list index out of range"
  | some nm =>
    match type_nodeattr c (nm ++ "Type") with
    | Option.none => .error ("AttributeError: Op has no such attribute: " ++ nm ++ "Type")
    | some tyname => regLookup reg tyname

/-- `get_output_datatype`: positional lookup in `["O"]`. -/
def get_output_datatype (reg : String → Option DType) (c : Config) (ind : Nat) :
    Except String DType :=
  let outputs : List String := ["O"]
  match outputs[ind]? with
  | Option.none => .error "IndexError: list index out of range"
  | some nm =>
    match type_nodeattr c (nm ++ "Type") with
    | Option.none => .error ("AttributeError: Op has no such attribute: " ++ nm ++ "Type")
    | some tyname => regLookup reg tyname

/-- `get_instream_width`: element bit-width of the input datatype times the
lane count (last component of the folded input shape). -/
def get_instream_width (reg : String → Option DType) (c : Config) (ind : Nat) :
    Except String Nat := do
  let dt ← get_input_datatype reg c ind
  let shp ← get_folded_input_shape c ind
  return shp.2.2 * dt.bitwidth

/-- `get_outstream_width`: element bit-width of the output datatype times the
lane count of the folded output shape. -/
def get_outstream_width (reg : String → Option DType) (c : Config) (ind : Nat) :
    Except String Nat := do
  let dt ← get_output_datatype reg c ind
  let shp := get_folded_output_shape c
  return shp.2.2 * dt.bitwidth

/-- `get_ap_int_max_w`: maximum over input/output stream widths, the mask
stream width (computed for `input` and `causal` mask modes), the attention
weights stream width, and per-matmul tile, accumulator and output widths. -/
def get_ap_int_max_w (reg : String → Option DType) (c : Config) : Except String Nat := do
  let w0 ← get_instream_width reg c 0
  let w1 ← get_instream_width reg c 1
  let w2 ← get_instream_width reg c 2
  let i_bits_max := max w0 (max w1 w2)
  let o_bits_max ← get_outstream_width reg c 0
  let m_bits ←
    if c.mask_mode = MaskMode.input ∨ c.mask_mode = MaskMode.causal then do
      let shp ← get_folded_input_shape c 3
      let mdt ← regLookup reg c.MType
      pure (shp.2.2 * mdt.bitwidth)
    else
      pure 0
  let shpK ← get_folded_input_shape c 1
  let i_elems := shpK.2.2
  let shpV ← get_folded_input_shape c 2
  let o_elems := shpV.2.2
  let s_elems := (get_folded_attention_shape c).2.2
  let adt ← regLookup reg c.AType
  let a_bits := s_elems * adt.bitwidth
  let kdt ← regLookup reg c.KType
  let vdt ← regLookup reg c.VType
  let tile_bits_max := max (i_elems * s_elems * kdt.bitwidth) (o_elems * s_elems * vdt.bitwidth)
  let accqk ← regLookup reg c.AccQKMatMul
  let accav ← regLookup reg c.AccAVMatMul
  let acc_bits_max := max accqk.bitwidth accav.bitwidth
  let outqk ← regLookup reg c.OutQKMatMul
  let outav ← regLookup reg c.OutAVMatMul
  let out_bits_max := max (s_elems * outqk.bitwidth) (o_elems * outav.bitwidth)
  let matmul_bits_max := max tile_bits_max (max acc_bits_max out_bits_max)
  return max i_bits_max (max o_bits_max (max m_bits (max a_bits matmul_bits_max)))

/-- Executable ceiling base-2 logarithm: `ceil_log2Aux fuel n = ⌈log₂ n⌉`
whenever `n ≤ fuel`, via the recurrence `⌈log₂ n⌉ = ⌈log₂ ⌈n/2⌉⌉ + 1` for
`n > 1`.  Structural recursion on the fuel keeps this kernel-reducible. -/
def ceil_log2Aux : Nat → Nat → Nat
  | 0, _ => 0
  | fuel + 1, n => if n ≤ 1 then 0 else ceil_log2Aux fuel ((n + 1) / 2) + 1

/-- Executable `⌈log₂ n⌉` (equal to `Nat.clog 2 n`, see `ceil_log2_eq_clog`). -/
def ceil_log2 (n : Nat) : Nat := ceil_log2Aux n n

/-- The width computation `int(np.ceil(np.log2(b) + 1))` of
`minimize_accumulator_width`, modelled exactly: for an integral `b ≥ 1` the
value is `⌈log₂ b⌉ + 1` (`⌈x + 1⌉ = ⌈x⌉ + 1`).  For `b ≤ 0` the logarithm is
not defined (numpy yields `-inf`/`nan` and the conversion to `int` fails). -/
def acc_bit_width_of (b : Int) : Except String Nat :=
  if 1 ≤ b then .ok (ceil_log2 b.toNat + 1)
  else .error "ValueError: cannot convert float NaN or infinity to integer"

/-- `minimize_accumulator_width`: propagate per-element extrema through the
two matrix multiplications and store minimal unsigned accumulator widths as
`UINT<width>` names.  The source sets `AccQKMatMul` before computing the
second width, so a failure of the second width computation leaves the first
update in place. -/
def minimize_accumulator_width (reg : String → Option DType) (c : Config) :
    Config × Option String :=
  match regLookup reg c.QType with
  | .error e => (c, some e)
  | .ok QType =>
  match regLookup reg c.KType with
  | .error e => (c, some e)
  | .ok KType =>
  match regLookup reg c.VType with
  | .error e => (c, some e)
  | .ok VType =>
  match regLookup reg c.AType with
  | .error e => (c, some e)
  | .ok AType =>
  let qk_min : Int := (c.QKDim : Int) * QType.min * KType.min
  let qk_max : Int := (c.QKDim : Int) * QType.max * KType.max
  let av_min : Int := (c.VDim : Int) * AType.min * VType.min
  let av_max : Int := (c.VDim : Int) * AType.max * VType.max
  match acc_bit_width_of (max (-qk_min) (1 + qk_max)) with
  | .error e => (c, some e)
  | .ok wqk =>
  let c₁ := { c with AccQKMatMul := "UINT" ++ toString wqk }
  match acc_bit_width_of (max (-av_min) (1 + av_max)) with
  | .error e => (c₁, some e)
  | .ok wav => ({ c₁ with AccAVMatMul := "UINT" ++ toString wav }, Option.none)

/-- One emitted warning event: the drifting attribute, the stored name and
the externally observed name (the source formats these into the message of
`warnings.warn`). -/
structure WarnEvent where
  attr : String
  oldName : String
  newName : String
deriving DecidableEq

/-- The warning emitted when an observed datatype differs from the stored
attribute (`<X>Type changing for <node>: <old> -> <new>`). -/
def drift_warn (attr old new : String) : List WarnEvent :=
  if new ≠ old then [⟨attr, old, new⟩] else []

/-- Attribute access on an observed datatype object; the operator only ever
reads the `name` attribute legitimately.  The source accesses the misspelled
attribute `namke` on the mask datatype, which does not exist. -/
def dtype_getattr (dtypeName : String) (attr : String) : Except String String :=
  if attr = "name" then .ok dtypeName
  else .error ("AttributeError: DataType object has no attribute " ++ attr)

/-- Result of `infer_node_datatype`: the (possibly partially) mutated
configuration, the warning events emitted, the datatype name asserted onto
the model output tensor (`Option.none` when the exception fires before the
final `set_tensor_datatype`), and the raised exception, if any. -/
structure InferResult where
  cfg : Config
  warnings : List WarnEvent
  outAsserted : Option String
  error : Option String
deriving DecidableEq

/-- `infer_node_datatype`: compare the observed query/key/value (and, in
`input` mask mode, mask) datatypes with the stored attributes, warn on each
drift and overwrite the stored names; finally assert the stored `OType`
outward onto the model output tensor.  In `input` mask mode the source
accesses `mask_dtype.namke` (a misspelling of `name`), which raises an
`AttributeError` after the query/key/value updates and the mask warning but
before the `MType` update and the output assertion. -/
def infer_node_datatype (c : Config) (q_dtype k_dtype v_dtype mask_dtype : String) :
    InferResult :=
  let ws := drift_warn "QType" c.QType q_dtype ++ drift_warn "KType" c.KType k_dtype ++
    drift_warn "VType" c.VType v_dtype
  let c₁ := { c with QType := q_dtype, KType := k_dtype, VType := v_dtype }
  if c.mask_mode = MaskMode.input then
    let ws := ws ++ drift_warn "MType" c₁.MType mask_dtype
    match dtype_getattr mask_dtype "namke" with
    | .error e => { cfg := c₁, warnings := ws, outAsserted := Option.none, error := some e }
    | .ok nm =>
      let c₂ := { c₁ with MType := nm }
      { cfg := c₂, warnings := ws, outAsserted := some c₂.OType, error := Option.none }
  else
    { cfg := c₁, warnings := ws, outAsserted := some c₁.OType, error := Option.none }

/-- External collaborators of `execute_node` (cf. the specification's external
interfaces): array reshaping, the floating-point reference attention
computation (`scipy` softmax path), the generated causal mask tensor, and the
result returned by the precompiled simulation executable.  These live outside
the configuration-derivation core, so the theorems below hold for every
instantiation. -/
structure ExecExternals (T : Type) where
  reshape3 : T → Nat × Nat × Nat → T
  reshape2 : T → Nat × Nat → T
  attention : T → T → T → Option T → T
  causalMask : T
  cppsimOut : Except String T

/-- `context[name]`: look up a tensor in the execution context; a missing
name is a `KeyError`. -/
def ctxLookup {T : Type} (ctx : List (String × T)) (key : String) : Except String T :=
  match ctx.find? (fun p => p.1 = key) with
  | some p => .ok p.2
  | Option.none => .error ("KeyError: " ++ key)

/-- `context[name] = value`: replace the binding if present, append it
otherwise. -/
def ctxSet {T : Type} : List (String × T) → String → T → List (String × T)
  | [], key, val => [(key, val)]
  | (k, v) :: rest, key, val =>
    if k = key then (key, val) :: rest else (k, v) :: ctxSet rest key val

/-- `list[i]` with a Python `IndexError` on overrun. -/
def listGet {α : Type} (l : List α) (i : Nat) : Except String α :=
  match l[i]? with
  | some x => .ok x
  | Option.none => .error "IndexError: list index out of range"

/-- The input-marshalling loop of `execute_node`: zip the file names
`q, k, v, m` with the node inputs (so a node without a fourth input produces
no mask file), reshape each context tensor to its folded shape and save it.
Returns the files written in order, stopping at the first exception (files
written before it persist). -/
def saveInputsLoop {T : Type} (ext : ExecExternals T) (c : Config) (dir : String)
    (ctx : List (String × T)) : Nat → List (String × String) →
    List (String × T) × Option String
  | _, [] => ([], Option.none)
  | ind, (name, ctxName) :: rest =>
    match ctxLookup ctx ctxName with
    | .error e => ([], some e)
    | .ok t =>
      match get_folded_input_shape c ind with
      | .error e => ([], some e)
      | .ok shp =>
        let (fs, err) := saveInputsLoop ext c dir ctx (ind + 1) rest
        ((dir ++ "/" ++ name ++ ".npy", ext.reshape3 t shp) :: fs, err)

/-- The `python` execution mode: read query, key and value from the context,
choose the mask per `mask_mode` (`Option.none` models the scalar `0`), run
the reference attention computation and write its result to the output name. -/
def python_mode_ctx {T : Type} (ext : ExecExternals T) (c : Config)
    (nodeInputs : List String) (nodeOutput : String) (ctx : List (String × T)) :
    Except String (List (String × T)) := do
  let i0 ← listGet nodeInputs 0
  let q ← ctxLookup ctx i0
  let i1 ← listGet nodeInputs 1
  let k ← ctxLookup ctx i1
  let i2 ← listGet nodeInputs 2
  let v ← ctxLookup ctx i2
  let mask ←
    if c.mask_mode = MaskMode.input then do
      let i3 ← listGet nodeInputs 3
      let m ← ctxLookup ctx i3
      pure (some m)
    else if c.mask_mode = MaskMode.causal then
      pure (some ext.causalMask)
    else
      pure Option.none
  return ctxSet ctx nodeOutput (ext.attention q k v mask)

/-- Outcome of `execute_node`: the `.npy` files written, the resulting
execution context and the raised exception, if any. -/
structure ExecOutcome (T : Type) where
  files : List (String × T)
  ctx : List (String × T)
  error : Option String
deriving DecidableEq

/-- The message of the invalid `exec_mode` exception (it names the offending
attribute `exec_mode` and the offending value). -/
def invalid_exec_mode_msg (mode : String) : String :=
  "Invalid value for attribute exec_mode! Is currently set to: " ++ mode

/-- `execute_node`: assert `is_valid_folding`, resolve the code-generation
directory from `exec_mode` (raising the invalid-`exec_mode` exception for any
unrecognized mode before any file is written or the context is touched),
marshal the folded inputs to files, then dispatch on the mode: `python` runs
the reference computation, `cppsim` loads the precompiled simulation output,
`rtlsim` raises `NotImplementedError`. -/
def execute_node {T : Type} (ext : ExecExternals T) (c : Config)
    (nodeInputs : List String) (nodeOutput : String) (context : List (String × T)) :
    ExecOutcome T :=
  if is_valid_folding c = false then
    { files := [], ctx := context, error := some "AssertionError: Invalid Folding" }
  else if c.exec_mode ≠ "cppsim" ∧ c.exec_mode ≠ "python" ∧ c.exec_mode ≠ "rtlsim" then
    { files := [], ctx := context, error := some (invalid_exec_mode_msg c.exec_mode) }
  else
    let code_gen_dir :=
      if c.exec_mode = "rtlsim" then c.code_gen_dir_ipgen else c.code_gen_dir_cppsim
    let pairs := List.zip ["q", "k", "v", "m"] nodeInputs
    let (files, loopErr) := saveInputsLoop ext c code_gen_dir context 0 pairs
    match loopErr with
    | some e => { files := files, ctx := context, error := some e }
    | Option.none =>
      if c.exec_mode = "python" then
        match python_mode_ctx ext c nodeInputs nodeOutput context with
        | .error e => { files := files, ctx := context, error := some e }
        | .ok ctx₂ => { files := files, ctx := ctx₂, error := Option.none }
      else if c.exec_mode = "cppsim" then
        match ext.cppsimOut with
        | .error e => { files := files, ctx := context, error := some e }
        | .ok out =>
          let folded := ext.reshape2 out (get_normal_output_shape c)
          { files := files, ctx := ctxSet context nodeOutput folded, error := Option.none }
      else
        { files := files, ctx := context,
          error := some "NotImplementedError: exec_mode rtlsim is not implemented yet!" }

/-- A concrete sample of the external datatype registry, used by the concrete
evaluations below; unsigned `UINT<w>` entries range over `[0, 2^w - 1]` and
signed `INT<w>` entries over `[-2^(w-1), 2^(w-1) - 1]`. -/
def sampleReg : String → Option DType
  | "UINT4" => some ⟨false, 4, false, 0, 15⟩
  | "UINT8" => some ⟨false, 8, false, 0, 255⟩
  | "INT8" => some ⟨true, 8, false, -128, 127⟩
  | "INT0" => some ⟨true, 0, false, 0, 0⟩
  | "UINT32" => some ⟨false, 32, false, 0, 4294967295⟩
  | _ => Option.none

/-- A concrete valid configuration with no mask. -/
def cfg0 : Config where
  QKDim := 4
  QLen := 2
  VDim := 4
  KVLen := 4
  EmbFold := 2
  SeqFold := 2
  QType := "UINT8"
  KType := "UINT8"
  VType := "UINT8"
  MType := "INT0"
  AType := "UINT4"
  OType := "UINT8"
  AccQKMatMul := "UINT32"
  OutQKMatMul := "UINT32"
  AccAVMatMul := "UINT32"
  OutAVMatMul := "UINT32"
  mask_mode := MaskMode.none
  exec_mode := ""
  code_gen_dir_cppsim := "gen"
  code_gen_dir_ipgen := "ip"

/-- The accumulator-width example configuration of the specification:
`qkDim = 64` with unsigned 8-bit query and key datatypes. -/
def cfgAcc : Config :=
  { cfg0 with QKDim := 64, VDim := 64, KVLen := 64, EmbFold := 8, SeqFold := 8 }

/-- The spec's stream-width example configuration: `qLen = 4`, `kvLen = 8`,
`qkDim = 16`, `embFold = 4`, 4-bit unsigned query datatype. -/
def cfgSW : Config :=
  { cfg0 with QLen := 4, KVLen := 8, QKDim := 16, VDim := 16, EmbFold := 4, SeqFold := 4,
              QType := "UINT4" }

/-- A concrete valid configuration receiving the mask as fourth input. -/
def cfgMask : Config := { cfg0 with mask_mode := MaskMode.input }

/-- A trivial instantiation of the external collaborators of `execute_node`. -/
def extUnit : ExecExternals Unit where
  reshape3 := fun t _ => t
  reshape2 := fun t _ => t
  attention := fun a _ _ _ => a
  causalMask := ()
  cppsimOut := .ok ()

/-- Reconstruction of a normal shape from a folded shape:
`(outerExtent, foldFactor, laneCount) ↦ (outerExtent, foldFactor * laneCount)`. -/
def foldedToNormal (s : Nat × Nat × Nat) : Nat × Nat := (s.1, s.2.1 * s.2.2)

theorem ceil_log2Aux_eq_clog (fuel n : Nat) (h : n ≤ fuel) :
    ceil_log2Aux fuel n = Nat.clog 2 n := by
  induction fuel generalizing n with
  | zero =>
    have hn : n = 0 := by omega
    subst hn
    simp [ceil_log2Aux]
  | succ f ih =>
    rw [ceil_log2Aux]
    split
    · next hle => rw [Nat.clog_of_right_le_one hle]
    · next hgt =>
      have h2 : 2 ≤ n := by omega
      rw [ih ((n + 1) / 2) (by omega), Nat.clog_of_two_le (by norm_num) h2]
      norm_num

theorem ceil_log2_eq_clog (n : Nat) : ceil_log2 n = Nat.clog 2 n :=
  ceil_log2Aux_eq_clog n n le_rfl

theorem ceil_log2_cast_eq_ceil_logb (n : Nat) :
    (ceil_log2 n : Int) = ⌈Real.logb 2 (n : Real)⌉ := by
  have h := Real.ceil_logb_natCast (b := 2) (r := (n : Real)) (Nat.cast_nonneg n)
  rw [Int.clog_natCast] at h
  rw [ceil_log2_eq_clog]
  rw [← h]
  norm_num

theorem ceil_log2_toNat_cast (b : Int) (hb : 1 ≤ b) :
    (ceil_log2 b.toNat : Int) = ⌈Real.logb 2 (b : Real)⌉ := by
  have h := ceil_log2_cast_eq_ceil_logb b.toNat
  have hcast : ((b.toNat : Nat) : Real) = (b : Real) := by
    have h2 : ((b.toNat : Int)) = b := Int.toNat_of_nonneg (by omega)
    exact_mod_cast congrArg (fun z : Int => (z : Real)) h2
  rwa [hcast] at h

theorem dtype_getattr_namke (nm : String) :
    dtype_getattr nm "namke" =
      .error "AttributeError: DataType object has no attribute namke" := by
  unfold dtype_getattr
  rw [if_neg (by decide)]
  rfl

theorem drift_warn_length (a o n : String) :
    (drift_warn a o n).length = if n = o then 0 else 1 := by
  unfold drift_warn
  split_ifs with h1 h2 <;> simp_all

theorem filter_drift_warn_self (a o n : String) :
    (drift_warn a o n).filter (fun w => w.attr = a) = drift_warn a o n := by
  unfold drift_warn
  split_ifs <;> simp

theorem filter_drift_warn_other (a a₂ o n : String) (h : a ≠ a₂) :
    (drift_warn a o n).filter (fun w => w.attr = a₂) = [] := by
  unfold drift_warn
  split_ifs <;> simp [h]

/-- Claim C1: for every configuration whose query, key, value and attention
weights datatype names resolve in the registry (to descriptors with
nonnegative maxima, as every representable datatype has),
`minimize_accumulator_width` succeeds and stores `UINT<w>` with
`w = ⌈log₂ (max (-qkMin) (1 + qkMax))⌉ + 1` for the query-key accumulator,
where `qkMin = qkDim * QType.min * KType.min` and
`qkMax = qkDim * QType.max * KType.max`, and symmetrically stores the
attention-value accumulator width from `vDim`, `AType` and `VType`.  The
second and third conjuncts identify the executable width computation with
the mathematical `⌈log₂ ·⌉` of the claim. -/
theorem claim_C1_minimize_accumulator_width (reg : String → Option DType) (c : Config)
    (qt kt vt at' : DType)
    (hq : reg c.QType = some qt) (hk : reg c.KType = some kt)
    (hv : reg c.VType = some vt) (ha : reg c.AType = some at')
    (hqmax : 0 ≤ qt.max) (hkmax : 0 ≤ kt.max) (hvmax : 0 ≤ vt.max) (hamax : 0 ≤ at'.max) :
    minimize_accumulator_width reg c =
      ({ c with
          AccQKMatMul := "UINT" ++ toString (ceil_log2
            (max (-((c.QKDim : Int) * qt.min * kt.min))
                 (1 + (c.QKDim : Int) * qt.max * kt.max)).toNat + 1),
          AccAVMatMul := "UINT" ++ toString (ceil_log2
            (max (-((c.VDim : Int) * at'.min * vt.min))
                 (1 + (c.VDim : Int) * at'.max * vt.max)).toNat + 1) },
        Option.none)
    ∧ (ceil_log2 (max (-((c.QKDim : Int) * qt.min * kt.min))
          (1 + (c.QKDim : Int) * qt.max * kt.max)).toNat : Int) =
        ⌈Real.logb 2 ((max (-((c.QKDim : Int) * qt.min * kt.min))
          (1 + (c.QKDim : Int) * qt.max * kt.max) : Int) : Real)⌉
    ∧ (ceil_log2 (max (-((c.VDim : Int) * at'.min * vt.min))
          (1 + (c.VDim : Int) * at'.max * vt.max)).toNat : Int) =
        ⌈Real.logb 2 ((max (-((c.VDim : Int) * at'.min * vt.min))
          (1 + (c.VDim : Int) * at'.max * vt.max) : Int) : Real)⌉ := by
  have hqkM : (0 : Int) ≤ (c.QKDim : Int) * qt.max * kt.max :=
    mul_nonneg (mul_nonneg (Int.natCast_nonneg _) hqmax) hkmax
  have havM : (0 : Int) ≤ (c.VDim : Int) * at'.max * vt.max :=
    mul_nonneg (mul_nonneg (Int.natCast_nonneg _) hamax) hvmax
  have hqkB : (1 : Int) ≤ max (-((c.QKDim : Int) * qt.min * kt.min))
      (1 + (c.QKDim : Int) * qt.max * kt.max) :=
    le_trans (by linarith) (le_max_right _ _)
  have havB : (1 : Int) ≤ max (-((c.VDim : Int) * at'.min * vt.min))
      (1 + (c.VDim : Int) * at'.max * vt.max) :=
    le_trans (by linarith) (le_max_right _ _)
  refine ⟨?_, ceil_log2_toNat_cast _ hqkB, ceil_log2_toNat_cast _ havB⟩
  simp only [minimize_accumulator_width, regLookup, acc_bit_width_of, hq, hk, hv, ha,
    eq_true hqkB, eq_true havB, if_true]

/-- Witness for claim C1: the specification's example `qkDim = 64` with
unsigned 8-bit query/key datatypes yields exactly `UINT23` (and, for the
4-bit attention-weights and 8-bit value datatypes of `cfgAcc`, `UINT19` for
the attention-value accumulator). -/
theorem claim_C1_witness :
    minimize_accumulator_width sampleReg cfgAcc =
      ({ cfgAcc with AccQKMatMul := "UINT23", AccAVMatMul := "UINT19" }, Option.none) := by
  have h := (claim_C1_minimize_accumulator_width sampleReg cfgAcc
    ⟨false, 8, false, 0, 255⟩ ⟨false, 8, false, 0, 255⟩ ⟨false, 8, false, 0, 255⟩
    ⟨false, 4, false, 0, 15⟩ rfl rfl rfl rfl (by decide) (by decide) (by decide)
    (by decide)).1
  rw [h]
  rfl

/-- Claim C2 (failing part): under `causal` mask mode `get_ap_int_max_w` does
not return the maximum described by the claim; its mask-width computation
calls `get_folded_input_shape` at index 3, whose normal-shape list has only
three entries outside `input` mask mode, so the call raises an `IndexError`
instead of returning a width. -/
theorem claim_C2_causal_ap_int_max_w_raises :
    get_ap_int_max_w sampleReg { cfg0 with mask_mode := MaskMode.causal } =
      .error "IndexError: list index out of range" := by
  rfl

/-- Claim C3 (failing part): in `input` mask mode with an observed mask
datatype differing from the stored `MType`, `infer_node_datatype` does emit
the warning, but then raises an `AttributeError` on the misspelled attribute
access `mask_dtype.namke`, so the stored `MType` is never overwritten and the
call does not return normally (the output datatype assertion is never
reached). -/
theorem claim_C3_mask_namke_raises :
    (infer_node_datatype cfgMask "UINT8" "UINT8" "UINT8" "INT8").warnings =
      [⟨"MType", "INT0", "INT8"⟩]
    ∧ (infer_node_datatype cfgMask "UINT8" "UINT8" "UINT8" "INT8").error =
      some "AttributeError: DataType object has no attribute namke"
    ∧ (infer_node_datatype cfgMask "UINT8" "UINT8" "UINT8" "INT8").cfg.MType = "INT0"
    ∧ (infer_node_datatype cfgMask "UINT8" "UINT8" "UINT8" "INT8").outAsserted =
      Option.none := by
  exact ⟨rfl, rfl, rfl, rfl⟩

/-- Claim C5: for the query role the stream width is the lane count times the
element bit-width (the spec example `qkDim = 16`, `embFold = 4`, 4-bit
unsigned query datatype gives 16 bits), but for the mask role in `input` mask
mode the lookup builds the unregistered attribute name `maskType` (from the
role list entry `"mask"`) and raises an `AttributeError` instead of
returning `laneCount * elementBitwidth`. -/
theorem claim_C5_stream_width :
    get_instream_width sampleReg cfgSW 0 = .ok 16
    ∧ get_outstream_width sampleReg cfgSW 0 = .ok (4 * 8)
    ∧ get_instream_width sampleReg cfgMask 3 =
        .error "AttributeError: Op has no such attribute: maskType" := by
  exact ⟨rfl, rfl, rfl⟩

/-- Claim C4: for every configuration with a valid folding (and positive fold
factors, matching the Python domain of `%`), the folded shape of every role
active under the current mask mode — query, key, value, the mask in `input`
mask mode, the output and the attention weights — reconstructs the
corresponding normal shape via
`(outerExtent, foldFactor, laneCount) ↦ (outerExtent, foldFactor * laneCount)`. -/
theorem claim_C4_folding_invertible (c : Config) (he : 0 < c.EmbFold) (hs : 0 < c.SeqFold)
    (hvalid : is_valid_folding c = true) :
    (get_folded_input_shape c 0).map foldedToNormal = get_normal_input_shape c 0
    ∧ (get_folded_input_shape c 1).map foldedToNormal = get_normal_input_shape c 1
    ∧ (get_folded_input_shape c 2).map foldedToNormal = get_normal_input_shape c 2
    ∧ (c.mask_mode = MaskMode.input →
        (get_folded_input_shape c 3).map foldedToNormal = get_normal_input_shape c 3)
    ∧ foldedToNormal (get_folded_output_shape c) = get_normal_output_shape c
    ∧ foldedToNormal (get_folded_attention_shape c) = get_normal_attention_shape c := by
  have hmods : (c.QKDim % c.EmbFold = 0 ∧ c.VDim % c.EmbFold = 0) ∧
      c.KVLen % c.SeqFold = 0 := by
    simpa [is_valid_folding, Decidable.not_not] using hvalid
  obtain ⟨⟨h1, h2⟩, h3⟩ := hmods
  have d1 : c.EmbFold ∣ c.QKDim := Nat.dvd_of_mod_eq_zero h1
  have d2 : c.EmbFold ∣ c.VDim := Nat.dvd_of_mod_eq_zero h2
  have d3 : c.SeqFold ∣ c.KVLen := Nat.dvd_of_mod_eq_zero h3
  refine ⟨?_, ?_, ?_, ?_, ?_, ?_⟩
  · cases hm : c.mask_mode <;>
      simp [get_folded_input_shape, get_normal_input_shape, foldedToNormal, Except.map, hm,
        Nat.mul_div_cancel' d1]
  · cases hm : c.mask_mode <;>
      simp [get_folded_input_shape, get_normal_input_shape, foldedToNormal, Except.map, hm,
        Nat.mul_div_cancel' d1]
  · cases hm : c.mask_mode <;>
      simp [get_folded_input_shape, get_normal_input_shape, foldedToNormal, Except.map, hm,
        Nat.mul_div_cancel' d2]
  · intro hm
    simp [get_folded_input_shape, get_normal_input_shape, foldedToNormal, Except.map, hm,
      Nat.mul_div_cancel' d3]
  · simp [get_folded_output_shape, get_normal_output_shape, foldedToNormal,
      Nat.mul_div_cancel' d2]
  · simp [get_folded_attention_shape, get_normal_attention_shape, foldedToNormal,
      Nat.mul_div_cancel' d3]

/-- Witness for claim C4 at the concrete valid configuration `cfgMask`
(mask received as input, so every role is active). -/
theorem claim_C4_witness :
    (get_folded_input_shape cfgMask 0).map foldedToNormal = get_normal_input_shape cfgMask 0
    ∧ (get_folded_input_shape cfgMask 1).map foldedToNormal = get_normal_input_shape cfgMask 1
    ∧ (get_folded_input_shape cfgMask 2).map foldedToNormal = get_normal_input_shape cfgMask 2
    ∧ (get_folded_input_shape cfgMask 3).map foldedToNormal = get_normal_input_shape cfgMask 3
    ∧ foldedToNormal (get_folded_output_shape cfgMask) = get_normal_output_shape cfgMask
    ∧ foldedToNormal (get_folded_attention_shape cfgMask) = get_normal_attention_shape cfgMask := by
  have h := claim_C4_folding_invertible cfgMask (by decide) (by decide) (by decide)
  exact ⟨h.1, h.2.1, h.2.2.1, h.2.2.2.1 rfl, h.2.2.2.2.1, h.2.2.2.2.2⟩

/-- Claim C6: for each of the query, key and value roles,
`infer_node_datatype` emits exactly one warning event exactly when the
observed datatype differs from the stored attribute, always overwrites the
stored attribute with the observed name, and the raised exception (if any)
depends only on the mask mode, never on drift of these roles: outside
`input` mask mode the call returns normally. -/
theorem claim_C6_qkv_drift (c : Config) (q k v m : String) :
    ((infer_node_datatype c q k v m).warnings.filter (fun w => w.attr = "QType")).length =
      (if q = c.QType then 0 else 1)
    ∧ ((infer_node_datatype c q k v m).warnings.filter (fun w => w.attr = "KType")).length =
      (if k = c.KType then 0 else 1)
    ∧ ((infer_node_datatype c q k v m).warnings.filter (fun w => w.attr = "VType")).length =
      (if v = c.VType then 0 else 1)
    ∧ (infer_node_datatype c q k v m).cfg.QType = q
    ∧ (infer_node_datatype c q k v m).cfg.KType = k
    ∧ (infer_node_datatype c q k v m).cfg.VType = v
    ∧ (infer_node_datatype c q k v m).error =
      (if c.mask_mode = MaskMode.input then
        some "AttributeError: DataType object has no attribute namke" else Option.none) := by
  unfold infer_node_datatype
  cases hm : c.mask_mode <;>
    simp [hm, dtype_getattr_namke, List.filter_append, drift_warn_length,
      filter_drift_warn_self, filter_drift_warn_other "KType" "QType" _ _ (by decide),
      filter_drift_warn_other "VType" "QType" _ _ (by decide),
      filter_drift_warn_other "MType" "QType" _ _ (by decide),
      filter_drift_warn_other "QType" "KType" _ _ (by decide),
      filter_drift_warn_other "VType" "KType" _ _ (by decide),
      filter_drift_warn_other "MType" "KType" _ _ (by decide),
      filter_drift_warn_other "QType" "VType" _ _ (by decide),
      filter_drift_warn_other "KType" "VType" _ _ (by decide),
      filter_drift_warn_other "MType" "VType" _ _ (by decide)]

/-- Claim C7: `infer_node_datatype` never modifies the stored output datatype
`OType`, for every observed input combination and every mask mode; and
whenever the call completes (every mask mode except `input`, where the
misspelled `namke` access raises first) the stored `OType` is asserted
outward onto the model output tensor. -/
theorem claim_C7_otype_frame (c : Config) (q k v m : String) :
    (infer_node_datatype c q k v m).cfg.OType = c.OType
    ∧ (c.mask_mode ≠ MaskMode.input →
        (infer_node_datatype c q k v m).error = Option.none
        ∧ (infer_node_datatype c q k v m).outAsserted = some c.OType) := by
  unfold infer_node_datatype
  cases hm : c.mask_mode <;> simp [hm, dtype_getattr_namke]

/-- Witness for claim C7 at a concrete no-mask configuration with a drifting
query datatype. -/
theorem claim_C7_witness :
    (infer_node_datatype cfg0 "INT8" "UINT8" "UINT8" "INT0").cfg.OType = cfg0.OType
    ∧ (infer_node_datatype cfg0 "INT8" "UINT8" "UINT8" "INT0").error = Option.none
    ∧ (infer_node_datatype cfg0 "INT8" "UINT8" "UINT8" "INT0").outAsserted =
        some cfg0.OType := by
  obtain ⟨h1, h2⟩ := claim_C7_otype_frame cfg0 "INT8" "UINT8" "UINT8" "INT0"
  have h3 := h2 (by decide)
  exact ⟨h1, h3.1, h3.2⟩

/-- Counterexample for claim C8: requesting the folded shape of the mask role
at index 3 under mask mode `none` does fail, but with the generic
`IndexError` from the normal-shape list lookup — a message that does not
identify (or even contain) the invalid role index 3; the explicit
`Requested shape of invalid input index 3` message is never produced. -/
theorem claim_C8_counterexample :
    get_folded_input_shape cfg0 3 = .error "IndexError: list index out of range"
    ∧ Char.ofNat 51 ∉ "IndexError: list index out of range".data
    ∧ "IndexError: list index out of range" ≠
        "Requested shape of invalid input index " ++ toString 3 := by
  exact ⟨rfl, by decide, by decide⟩

/-- Claim C8 (amended): requesting the folded shape or the stream width of a
role index that is not active under the current mask mode fails with an
error — the `IndexError` raised by the normal-shape (resp. role-name) list
lookup, which does not name the index — and never silently returns a default
shape or width. -/
theorem claim_C8_amended (reg : String → Option DType) (c : Config) (ind : Nat)
    (h3 : 3 ≤ ind) (hmask : ind = 3 → c.mask_mode ≠ MaskMode.input) :
    get_folded_input_shape c ind = .error "IndexError: list index out of range"
    ∧ get_instream_width reg c ind = .error "IndexError: list index out of range" := by
  cases hm : c.mask_mode
  case input =>
    have h4 : 4 ≤ ind := by
      rcases Nat.eq_or_lt_of_le h3 with heq | hlt
      · exact absurd hm (hmask heq.symm)
      · omega
    have hn1 : [(c.QLen, c.QKDim), (c.KVLen, c.QKDim), (c.KVLen, c.VDim),
        (c.QLen, c.KVLen)][ind]? = (Option.none : Option (Nat × Nat)) :=
      List.getElem?_eq_none (by simp; omega)
    have hn2 : ["Q", "K", "V", "mask"][ind]? = (Option.none : Option String) :=
      List.getElem?_eq_none (by simp; omega)
    constructor
    · simp [get_folded_input_shape, get_normal_input_shape, hm, hn1]
    · simp [get_instream_width, get_input_datatype, hm, hn2, Bind.bind, Except.bind]
  all_goals
    have hn1 : [(c.QLen, c.QKDim), (c.KVLen, c.QKDim), (c.KVLen, c.VDim)][ind]? =
        (Option.none : Option (Nat × Nat)) :=
      List.getElem?_eq_none (by simp; omega)
  all_goals
    have hn2 : ["Q", "K", "V"][ind]? = (Option.none : Option String) :=
      List.getElem?_eq_none (by simp; omega)
  all_goals
    constructor
    · simp [get_folded_input_shape, get_normal_input_shape, hm, hn1]
    · simp [get_instream_width, get_input_datatype, hm, hn2, Bind.bind, Except.bind]

/-- Witness for claim C8 (amended) at the concrete configuration `cfg0`
(mask mode `none`) and role index 3. -/
theorem claim_C8_witness :
    get_folded_input_shape cfg0 3 = .error "IndexError: list index out of range"
    ∧ get_instream_width sampleReg cfg0 3 =
        .error "IndexError: list index out of range" :=
  claim_C8_amended sampleReg cfg0 3 (by decide) (fun _ => by decide)

/-- Claim C9: calling `execute_node` with an `exec_mode` outside the
recognized modes (`cppsim`, `python`, `rtlsim`) raises before any computation
proceeds — no input file is written and the execution context is unchanged —
and, whenever the folding assertion that precedes the mode dispatch passes,
the raised exception is the invalid-configuration error naming the offending
attribute `exec_mode`.  This holds for every instantiation of the external
collaborators (reference computation, reshaping, precompiled simulation). -/
theorem claim_C9_invalid_exec_mode {T : Type} (ext : ExecExternals T) (c : Config)
    (nodeInputs : List String) (nodeOutput : String) (context : List (String × T))
    (h1 : c.exec_mode ≠ "cppsim") (h2 : c.exec_mode ≠ "python") (h3 : c.exec_mode ≠ "rtlsim") :
    (execute_node ext c nodeInputs nodeOutput context).files = []
    ∧ (execute_node ext c nodeInputs nodeOutput context).ctx = context
    ∧ (execute_node ext c nodeInputs nodeOutput context).error ≠ Option.none
    ∧ (is_valid_folding c = true →
        (execute_node ext c nodeInputs nodeOutput context).error =
          some (invalid_exec_mode_msg c.exec_mode)) := by
  unfold execute_node
  cases hval : is_valid_folding c
  · simp [hval]
  · simp [hval, h1, h2, h3]

/-- Witness for claim C9 at a concrete valid configuration with
`exec_mode = "bogus"`. -/
theorem claim_C9_witness :
    (execute_node extUnit { cfg0 with exec_mode := "bogus" } ["a", "b", "c"] "o"
      [("a", ())]).files = []
    ∧ (execute_node extUnit { cfg0 with exec_mode := "bogus" } ["a", "b", "c"] "o"
      [("a", ())]).ctx = [("a", ())]
    ∧ (execute_node extUnit { cfg0 with exec_mode := "bogus" } ["a", "b", "c"] "o"
      [("a", ())]).error ≠ Option.none
    ∧ (execute_node extUnit { cfg0 with exec_mode := "bogus" } ["a", "b", "c"] "o"
      [("a", ())]).error = some (invalid_exec_mode_msg "bogus") := by
  have h := claim_C9_invalid_exec_mode extUnit { cfg0 with exec_mode := "bogus" }
    ["a", "b", "c"] "o" [("a", ())] (by decide) (by decide) (by decide)
  exact ⟨h.1, h.2.1, h.2.2.1, h.2.2.2 (by decide)⟩

/-- Claim C10: for all positive shape fields and positive fold factors,
`is_valid_folding` holds exactly when `EmbFold` divides `QKDim`, `EmbFold`
divides `VDim` and `SeqFold` divides `KVLen`; and `QLen` never affects the
verdict. -/
theorem claim_C10_is_valid_folding (c : Config) (hq : 0 < c.QKDim) (hql : 0 < c.QLen)
    (hv : 0 < c.VDim) (hk : 0 < c.KVLen) (he : 0 < c.EmbFold) (hs : 0 < c.SeqFold) :
    (is_valid_folding c = true ↔
      (c.EmbFold ∣ c.QKDim ∧ c.EmbFold ∣ c.VDim ∧ c.SeqFold ∣ c.KVLen))
    ∧ ∀ n : Nat, is_valid_folding { c with QLen := n } = is_valid_folding c := by
  constructor
  · simp [is_valid_folding, Nat.dvd_iff_mod_eq_zero, Decidable.not_not, and_assoc]
  · intro n
    rfl

/-- Witness for claim C10 at the concrete configuration `cfg0`
(`4 % 2 = 0` on all three axes) and a changed query length. -/
theorem claim_C10_witness :
    (is_valid_folding cfg0 = true ↔
      (cfg0.EmbFold ∣ cfg0.QKDim ∧ cfg0.EmbFold ∣ cfg0.VDim ∧ cfg0.SeqFold ∣ cfg0.KVLen))
    ∧ is_valid_folding { cfg0 with QLen := 17 } = is_valid_folding cfg0 := by
  have h := claim_C10_is_valid_folding cfg0 (by decide) (by decide) (by decide)
    (by decide) (by decide) (by decide)
  exact ⟨h.1, h.2 17⟩

/-- Counterexample for claim C7: in `input` mask mode the misspelled `namke`
attribute access raises before the final `set_tensor_datatype`, so for that
combination the stored `OType` is **not** asserted outward onto the model
output tensor (it is still never modified). -/
theorem claim_C7_counterexample :
    (infer_node_datatype cfgMask "UINT8" "UINT8" "UINT8" "UINT8").outAsserted =
      Option.none
    ∧ (infer_node_datatype cfgMask "UINT8" "UINT8" "UINT8" "UINT8").cfg.OType =
      cfgMask.OType := by
  exact ⟨rfl, rfl⟩
